import Mathlib

/-!
Shallow embedding of the request-lifecycle subsystem of the
monitoring-dashboard-automation service, together with theorems checking
the natural-language specification against the code.

Conventions of the embedding:
- Go float64 values (the injection rate, random samples) are modelled as
  rationals; uniform samples in [0,1) are universally quantified rationals
  with explicit bounds.
- Go time.Duration values are integers counting nanoseconds, exactly as in
  Go; time.Duration.Milliseconds is integer division by 1000000.
- Mutable state (the toggle store, the gauge) is passed explicitly; a
  method that mutates state returns the new state.
- Fallible or panicking operations return Option: none is a panic.
-/

namespace Toggles

/-- Model of toggles.ErrorToggle: the mutable fault-injection configuration
(the sync.RWMutex only serialises access and has no functional content). -/
structure ErrorToggle where
  Enabled : Bool
  Rate : ℚ
  StatusCode : ℤ
deriving DecidableEq, Repr

/-- toggles.NewErrorToggle: default configuration. -/
def NewErrorToggle : ErrorToggle :=
  { Enabled := false, Rate := 0, StatusCode := 500 }

/-- toggles.SetConfig: unconditional overwrite of all three fields,
no validation. -/
def SetConfig (et : ErrorToggle) (enabled : Bool) (rate : ℚ) (statusCode : ℤ) :
    ErrorToggle :=
  { et with Enabled := enabled, Rate := rate, StatusCode := statusCode }

/-- toggles.GetConfig. -/
def GetConfig (et : ErrorToggle) : Bool × ℚ × ℤ :=
  (et.Enabled, et.Rate, et.StatusCode)

/-- toggles.ShouldInjectError, with the rand.Float64() draw made an explicit
argument `sample`. Returns (false, 0) when disabled; when enabled returns
(true, StatusCode) if sample < Rate and (false, 0) otherwise. -/
def ShouldInjectError (et : ErrorToggle) (sample : ℚ) : Bool × ℤ :=
  if !et.Enabled then
    (false, 0)
  else if sample < et.Rate then
    (true, et.StatusCode)
  else
    (false, 0)

/-- The spec sentence for ShouldInject, taken literally: when enabled it
returns the pair (sample < rate, statusCode). Used only to compare the
spec wording against the source. -/
def ShouldInjectErrorSpec (et : ErrorToggle) (sample : ℚ) : Bool × ℤ :=
  if !et.Enabled then
    (false, 0)
  else
    (decide (sample < et.Rate), et.StatusCode)

end Toggles

namespace Handlers

open Toggles

/-- The decoded body of POST /api/v1/toggles/error-rate. -/
structure ErrorRateRequest where
  Enabled : Bool
  Rate : ℚ
  StatusCode : ℤ
deriving DecidableEq, Repr

/-- Result of the ErrorRate handler: HTTP status, toggle store state after
the call, the SetConfig invocations made, and the echoed body (none on
error responses). -/
structure ErrorRateResult where
  status : ℤ
  toggle : ErrorToggle
  setCalls : List (Bool × ℚ × ℤ)
  echo : Option ErrorRateRequest
deriving DecidableEq, Repr

/-- ToggleHandlers.ErrorRate: the body is none when json.Decode fails;
rate outside [0,1] or status code outside [500,599] is rejected with 400
before SetConfig is reached; otherwise SetConfig stores the values and a
200 echo is returned. -/
def ErrorRate (toggle : ErrorToggle) (body : Option ErrorRateRequest) :
    ErrorRateResult :=
  match body with
  | none => { status := 400, toggle := toggle, setCalls := [], echo := none }
  | some req =>
    if req.Rate < 0 ∨ req.Rate > 1 then
      { status := 400, toggle := toggle, setCalls := [], echo := none }
    else if req.StatusCode < 500 ∨ req.StatusCode > 599 then
      { status := 400, toggle := toggle, setCalls := [], echo := none }
    else
      { status := 200
        toggle := SetConfig toggle req.Enabled req.Rate req.StatusCode
        setCalls := [(req.Enabled, req.Rate, req.StatusCode)]
        echo := some req }

end Handlers

namespace Health

/-- Model of a context deadline: the number of milliseconds remaining, or
none when the context has no deadline. -/
def Ctx := Option ℕ
deriving DecidableEq

/-- context.WithTimeout: caps the remaining deadline at `ms`. -/
def withTimeout (c : Ctx) (ms : ℕ) : Ctx :=
  match c with
  | none => some ms
  | some t => some (min t ms)

/-- health.CheckFunc: a check receives the context and returns none on
success or the error message of the failure. -/
def CheckFunc := Ctx → Option String

/-- health.Checker: the registered checks (as the snapshot sequence the Go
map iteration produces; the iteration order of the Go map is arbitrary) and
the force-failure flag. -/
structure Checker where
  checks : List (String × CheckFunc)
  forceFailure : Bool

/-- health.NewChecker. -/
def NewChecker : Checker :=
  { checks := [], forceFailure := false }

/-- health.Checker.AddCheck (appends; the Go map is unordered, the list
order stands for one possible iteration order). -/
def AddCheck (c : Checker) (name : String) (check : CheckFunc) : Checker :=
  { c with checks := c.checks ++ [(name, check)] }

/-- health.Checker.SetForceFailure. -/
def SetForceFailure (c : Checker) (fail : Bool) : Checker :=
  { c with forceFailure := fail }

/-- health.Checker.IsForceFailure. -/
def IsForceFailure (c : Checker) : Bool :=
  c.forceFailure

/-- health.HealthCheckError. -/
structure HealthCheckError where
  Component : String
  Message : String
deriving DecidableEq, Repr

/-- health.HealthCheckError.Error. -/
def errorString (e : HealthCheckError) : String :=
  "health check failed for " ++ e.Component ++ ": " ++ e.Message

/-- The loop body of CheckReadiness: evaluate the snapshotted checks in
order against the derived context; the first failure aborts the walk. -/
def firstFailure : List (String × CheckFunc) → Ctx → Option HealthCheckError
  | [], _ => none
  | (name, check) :: rest, ctx =>
    match check ctx with
    | some msg => some { Component := name, Message := msg }
    | none => firstFailure rest ctx

/-- health.Checker.CheckReadiness: force-failure short-circuits with the
synthetic component "forced"; otherwise all checks run under the context
capped by the 5 second batch deadline, first failure wins. -/
def CheckReadiness (c : Checker) (ctx : Ctx) : Option HealthCheckError :=
  if IsForceFailure c then
    some { Component := "forced"
           Message := "readiness check forced to fail for testing" }
  else
    firstFailure c.checks (withTimeout ctx 5000)

/-- health.ReadinessHandler: status code and body of GET /readyz. -/
def ReadinessHandler (c : Checker) (ctx : Ctx) : ℤ × String :=
  match CheckReadiness c ctx with
  | some e => (503, "Not Ready: " ++ errorString e)
  | none => (200, "Ready")

/-- health.LivenessHandler: status code and body of GET /healthz. -/
def LivenessHandler : ℤ × String :=
  (200, "OK")

end Health

namespace Metrics

/-- An increment or decrement of the work_jobs_inflight gauge. -/
inductive GaugeEvent where
  | inc
  | dec
deriving DecidableEq, Repr

/-- metrics.Registry.IncWorkJobsInflight on the gauge value. -/
def IncWorkJobsInflight (g : ℤ) : ℤ := g + 1

/-- metrics.Registry.DecWorkJobsInflight on the gauge value. -/
def DecWorkJobsInflight (g : ℤ) : ℤ := g - 1

/-- Apply one gauge event. -/
def applyGaugeEvent (g : ℤ) (e : GaugeEvent) : ℤ :=
  match e with
  | .inc => IncWorkJobsInflight g
  | .dec => DecWorkJobsInflight g

/-- Gauge value after a sequence of events, starting from `g`. -/
def gaugeAfter (g : ℤ) (evs : List GaugeEvent) : ℤ :=
  evs.foldl applyGaugeEvent g

/-- An interleaving of the per-request event sequences into one global
sequence: at each step one request emits its next event. This is the only
ordering constraint concurrent requests obey. -/
inductive Interleave : List (List GaugeEvent) → List GaugeEvent → Prop where
  | nil (ls : List (List GaugeEvent)) : (∀ l ∈ ls, l = []) → Interleave ls []
  | cons (pre post : List (List GaugeEvent)) (x : GaugeEvent)
      (xs : List GaugeEvent) (out : List GaugeEvent) :
      Interleave (pre ++ xs :: post) out →
      Interleave (pre ++ (x :: xs) :: post) (x :: out)

/-- Number of requests that have emitted their increment but not yet their
decrement: the lists whose remaining trace is exactly [dec]. -/
def pendingDecs (ls : List (List GaugeEvent)) : ℕ :=
  ls.countP (fun l => decide (l = [GaugeEvent.dec]))

end Metrics

namespace WorkSim

open Metrics

/-- A query parameter as the Work handler sees it: Go treats the empty
string as absent; a non-empty string either fails strconv.Atoi or yields an
integer. -/
inductive Param where
  | absent
  | invalid
  | value (n : ℤ)
deriving DecidableEq, Repr

/-- Nanoseconds of n milliseconds (Go: n * time.Millisecond). -/
def msToDuration (n : ℤ) : ℤ := n * 1000000

/-- Go time.Duration.Milliseconds: integer division by 1e6. -/
def durationMilliseconds (d : ℤ) : ℤ := d / 1000000

/-- baseDuration after parsing the ms parameter (handlers.go lines 96-104):
default 100ms, overridden only by a parse that succeeds with ms >= 0. -/
def baseDurationOf (p : Param) : ℤ :=
  match p with
  | .value n => if 0 ≤ n then msToDuration n else msToDuration 100
  | _ => msToDuration 100

/-- jitterDuration after parsing the jitter parameter (handlers.go lines
97, 107-111): default 0, overridden only by a parse that succeeds with
jitter >= 0. -/
def jitterDurationOf (p : Param) : ℤ :=
  match p with
  | .value n => if 0 ≤ n then msToDuration n else 0
  | _ => 0

/-- rand.Int63n with the raw random draw made explicit: Go documents a
panic (none) when the bound is not positive, otherwise a value uniform in
[0, bound). -/
def randInt63n (bound sample : ℤ) : Option ℤ :=
  if bound ≤ 0 then none else some (sample % bound)

/-- totalDuration computation of the Work handler (lines 113-119): the
random jitter draw happens only under the jitterDuration > 0 guard. -/
def computeTotal (base jitter sample : ℤ) : Option ℤ :=
  if jitter > 0 then
    match randInt63n jitter sample with
    | none => none
    | some j => some (base + j)
  else
    some base

/-- How the race inside simulateWork ended: the timer fired (completed),
the request context was cancelled or timed out first, or a panic was
raised downstream while the request was in flight. -/
inductive WorkOutcome where
  | completed
  | cancelled
  | panicked
deriving DecidableEq, Repr

/-- Observable result of one execution of the Work handler. -/
structure WorkResult where
  status : Option ℤ
  body : Option String
  failureOps : List String
  gaugeEvents : List GaugeEvent
  requestedMs : Option ℤ
  jitterMs : Option ℤ
  panicPropagates : Bool
deriving DecidableEq, Repr

/-- APIHandlers.Work. The jitter draw precedes the gauge increment; the
decrement is a defer, so it is emitted on completion, cancellation and
panic alike. On a simulateWork error the handler counts one failure of
operation "simulate_work" and answers 408; on completion it answers 200
echoing the requested durations in milliseconds. -/
def Work (ms jitter : Param) (sample : ℤ) (outcome : WorkOutcome) :
    WorkResult :=
  let base := baseDurationOf ms
  let jd := jitterDurationOf jitter
  match computeTotal base jd sample with
  | none =>
    -- a rand.Int63n panic would be raised before IncWorkJobsInflight
    { status := none, body := none, failureOps := [], gaugeEvents := []
      requestedMs := none, jitterMs := none, panicPropagates := true }
  | some _ =>
    match outcome with
    | .cancelled =>
      { status := some 408, body := some "Work simulation cancelled"
        failureOps := ["simulate_work"]
        gaugeEvents := [GaugeEvent.inc, GaugeEvent.dec]
        requestedMs := none, jitterMs := none, panicPropagates := false }
    | .completed =>
      { status := some 200, body := some "work completed"
        failureOps := []
        gaugeEvents := [GaugeEvent.inc, GaugeEvent.dec]
        requestedMs := some (durationMilliseconds base)
        jitterMs := some (durationMilliseconds jd)
        panicPropagates := false }
    | .panicked =>
      { status := none, body := none, failureOps := []
        gaugeEvents := [GaugeEvent.inc, GaugeEvent.dec]
        requestedMs := none, jitterMs := none, panicPropagates := true }

/-- One work request: its query parameters, its random draw and how its
simulated work ended. -/
structure WorkReq where
  ms : Param
  jitter : Param
  sample : ℤ
  outcome : WorkOutcome

end WorkSim

namespace Middleware

/-- Trace events of the composed pipeline: each middleware contributes its
entry (its before-logic) and its exit (its after/deferred logic) around
the handler. -/
inductive MwEvent where
  | enter (name : String)
  | exit (name : String)
  | handlerRun
deriving DecidableEq, Repr

/-- Wrapping a trace in one middleware. -/
def wrap (name : String) (inner : List MwEvent) : List MwEvent :=
  MwEvent.enter name :: inner ++ [MwEvent.exit name]

/-- Composing a stack of middlewares, first element outermost, exactly as
consecutive chi r.Use calls compose. -/
def applyStack (stack : List String) (h : List MwEvent) : List MwEvent :=
  stack.foldr wrap h

/-- The middleware stack NewRouter installs, in r.Use order (router source,
top-level stack). -/
def routerStack : List String :=
  ["chi.RequestID", "RequestIDMiddleware", "PanicRecoveryMiddleware",
   "LoggingMiddleware", "PrometheusMiddleware", "Timeout"]

/-- The extra route-scoped middlewares of the /api/v1/toggles routes, in
the order chi applies them: the /api/v1 group installs error injection,
the /toggles group installs bearer auth inside it. -/
def togglesRouteStack : List String :=
  routerStack ++ ["ErrorInjectionMiddleware", "BearerTokenAuthMiddleware"]

/-- The stack in the order the specification describes it: request-id,
structured logging, panic recovery, metrics. Used only to compare the
spec wording against the source. -/
def claimedStack : List String :=
  ["chi.RequestID", "RequestIDMiddleware", "LoggingMiddleware",
   "PanicRecoveryMiddleware", "PrometheusMiddleware", "Timeout"]

/-- State of the http.ResponseWriter as far as the status line is
concerned: the status already written, if any. A second WriteHeader is
ignored by Go. -/
def writeHeader (w : Option ℤ) (s : ℤ) : Option ℤ :=
  match w with
  | some _ => w
  | none => some s

/-- What the panic-recovery middleware logs when it recovers. -/
structure PanicLog where
  err : String
  requestId : String
  stack : String
deriving DecidableEq, Repr

/-- A downstream handler as the recovery middleware sees it: it transforms
the response-writer state and either returns normally (none) or panics
with a value (some). -/
def Downstream := Option ℤ → (Option ℤ) × Option String

/-- PanicRecoveryMiddleware: runs next; a recovered panic is logged with
the request id and stack and answered with http.Error 500 (a no-op on the
status if one was already written); the panic never propagates. -/
def PanicRecoveryMiddleware (next : Downstream) (requestId stack : String)
    (w : Option ℤ) : (Option ℤ) × Option String × List PanicLog :=
  match next w with
  | (w2, none) => (w2, none, [])
  | (w2, some e) =>
    (writeHeader w2 500, none,
     [{ err := e, requestId := requestId, stack := stack }])

/-- The "Bearer " literal of BearerTokenAuthMiddleware, as characters. -/
def bearerPfx : List Char := ['B', 'e', 'a', 'r', 'e', 'r', ' ']

/-- Outcome of the bearer-auth middleware on one request. -/
structure AuthOutcome where
  status : Option ℤ
  nextInvoked : Bool
deriving DecidableEq, Repr

/-- BearerTokenAuthMiddleware: the Authorization header is the empty
string when missing (Go Header.Get); a missing header, a header shorter
than or not starting with "Bearer ", or a token different from the admin
token all answer 401 without invoking next. -/
def BearerTokenAuthMiddleware (adminToken authHeader : List Char) :
    AuthOutcome :=
  if authHeader = [] then
    { status := some 401, nextInvoked := false }
  else if authHeader.length < bearerPfx.length ∨
      authHeader.take bearerPfx.length ≠ bearerPfx then
    { status := some 401, nextInvoked := false }
  else if authHeader.drop bearerPfx.length ≠ adminToken then
    { status := some 401, nextInvoked := false }
  else
    { status := none, nextInvoked := true }

end Middleware

namespace Shutdown

/-- Result of main.gracefulShutdown: the error it returned, whether
server.Shutdown was reached, and whether the metrics flush was attempted. -/
structure ShutdownResult where
  retErr : Option String
  serverShutdownCalled : Bool
  flushAttempted : Bool
deriving DecidableEq, Repr

/-- The drain loop: `inflight t` is the gauge value the poll at second t
reads. Polls happen at seconds 1, 2, ...; the context deadline allows
`fuel` further polls. Returns the second of the first poll that read 0, or
none when the deadline elapsed first. -/
def drainAux (inflight : ℕ → ℕ) : ℕ → ℕ → Option ℕ
  | 0, _ => none
  | fuel + 1, t =>
    if inflight (t + 1) = 0 then some (t + 1) else drainAux inflight fuel (t + 1)

/-- main.gracefulShutdown: drain first; only when the drain saw zero are
server.Shutdown and the metrics flush reached. A flush error is only
logged as a warning; the context deadline error is returned as is. -/
def gracefulShutdown (inflight : ℕ → ℕ) (deadline : ℕ)
    (shutdownErr flushErr : Option String) : ShutdownResult :=
  match drainAux inflight deadline 0 with
  | none =>
    { retErr := some "context deadline exceeded"
      serverShutdownCalled := false, flushAttempted := false }
  | some _ =>
    match shutdownErr with
    | some e =>
      { retErr := some e, serverShutdownCalled := true
        flushAttempted := false }
    | none =>
      let _ := flushErr
      { retErr := none, serverShutdownCalled := true
        flushAttempted := true }

/-- main: a gracefulShutdown error is fatal (os.Exit(1)). -/
def mainExitCode (res : ShutdownResult) : ℕ :=
  if res.retErr.isSome then 1 else 0

end Shutdown

section ClaimC1

/-- Claim C1 counterexample: the claim says an enabled toggle returns the
pair (sample < rate, statusCode). With the toggle enabled at rate 0 and
status code 503 that pair is (false, 503), but ShouldInjectError returns
(false, 0): the status code is reported only when the sample is below the
rate. -/
theorem C1_counterexample :
    ¬ (Toggles.ShouldInjectError
        { Enabled := true, Rate := 0, StatusCode := 503 } 0
      = (decide ((0 : ℚ) < 0), 503)) := by
  decide

/-- Claim C1 (amended): ShouldInjectError returns (false, 0) when the
toggle is disabled, for any rate and status code; when enabled it returns
(true, statusCode) if the uniform sample is below the rate and (false, 0)
otherwise; hence rate 0 never injects and rate 1 always injects. -/
theorem C1_should_inject (et : Toggles.ErrorToggle) (s : ℚ)
    (h0 : 0 ≤ s) (h1 : s < 1) :
    (et.Enabled = false → Toggles.ShouldInjectError et s = (false, 0)) ∧
    (et.Enabled = true → s < et.Rate →
      Toggles.ShouldInjectError et s = (true, et.StatusCode)) ∧
    (et.Enabled = true → ¬ s < et.Rate →
      Toggles.ShouldInjectError et s = (false, 0)) ∧
    (et.Rate = 0 → (Toggles.ShouldInjectError et s).1 = false) ∧
    (et.Enabled = true → et.Rate = 1 →
      (Toggles.ShouldInjectError et s).1 = true) := by
  unfold Toggles.ShouldInjectError
  refine ⟨?_, ?_, ?_, ?_, ?_⟩
  · intro he; simp [he]
  · intro he hs; simp [he, hs]
  · intro he hs; simp [he, hs]
  · intro hr
    cases he : et.Enabled with
    | false => simp [he]
    | true =>
      have : ¬ s < et.Rate := by rw [hr]; exact not_lt.mpr h0
      simp [he, this]
  · intro he hr
    have : s < et.Rate := by rw [hr]; exact h1
    simp [he, this]

/-- Claim C1 witness: the amended theorem applied at the enabled toggle
with rate 1 and status code 502 and sample 0. -/
theorem C1_should_inject_witness :
    (0 : ℚ) ≤ 0 ∧ (0 : ℚ) < 1 ∧
    (Toggles.ShouldInjectError
      { Enabled := true, Rate := 1, StatusCode := 502 } 0).1 = true :=
  ⟨le_refl 0, by norm_num,
    (C1_should_inject { Enabled := true, Rate := 1, StatusCode := 502 } 0
      (le_refl 0) (by norm_num)).2.2.2.2 rfl rfl⟩

end ClaimC1

section ClaimC4

/-- Claim C4: POST /api/v1/toggles/error-rate answers 400 exactly when the
body is invalid JSON, the rate is outside [0,1], or the status code is
outside [500,599]; any 400 leaves the toggle store untouched and makes no
SetConfig call; a valid body answers 200 with an echo after SetConfig
stores the values, and SetConfig itself accepts any value unvalidated. -/
theorem C4_error_rate (t : Toggles.ErrorToggle)
    (body : Option Handlers.ErrorRateRequest) :
    ((Handlers.ErrorRate t body).status = 400 ↔
      body = none ∨ ∃ req, body = some req ∧
        (req.Rate < 0 ∨ req.Rate > 1 ∨
         req.StatusCode < 500 ∨ req.StatusCode > 599)) ∧
    ((Handlers.ErrorRate t body).status = 400 →
      (Handlers.ErrorRate t body).toggle = t ∧
      (Handlers.ErrorRate t body).setCalls = []) ∧
    (∀ req, body = some req → 0 ≤ req.Rate → req.Rate ≤ 1 →
      500 ≤ req.StatusCode → req.StatusCode ≤ 599 →
      (Handlers.ErrorRate t body).status = 200 ∧
      (Handlers.ErrorRate t body).toggle =
        { Enabled := req.Enabled, Rate := req.Rate,
          StatusCode := req.StatusCode } ∧
      (Handlers.ErrorRate t body).echo = some req) ∧
    (∀ e r sc, Toggles.SetConfig t e r sc =
      { Enabled := e, Rate := r, StatusCode := sc }) := by
  refine ⟨?_, ?_, ?_, fun e r sc => rfl⟩
  · cases body with
    | none => simp [Handlers.ErrorRate]
    | some req =>
      by_cases h1 : req.Rate < 0 ∨ req.Rate > 1
      · simp [Handlers.ErrorRate, h1]
        tauto
      · by_cases h2 : req.StatusCode < 500 ∨ req.StatusCode > 599
        · simp [Handlers.ErrorRate, h1, h2]
        · simp [Handlers.ErrorRate, h1, h2]
  · cases body with
    | none => simp [Handlers.ErrorRate]
    | some req =>
      by_cases h1 : req.Rate < 0 ∨ req.Rate > 1
      · simp [Handlers.ErrorRate, h1]
      · by_cases h2 : req.StatusCode < 500 ∨ req.StatusCode > 599
        · simp [Handlers.ErrorRate, h1, h2]
        · simp [Handlers.ErrorRate, h1, h2]
  · intro req hb hr0 hr1 hs0 hs1
    subst hb
    have h1 : ¬ (req.Rate < 0 ∨ req.Rate > 1) := by
      push_neg; exact ⟨hr0, hr1⟩
    have h2 : ¬ (req.StatusCode < 500 ∨ req.StatusCode > 599) := by
      push_neg; exact ⟨hs0, hs1⟩
    simp [Handlers.ErrorRate, h1, h2, Toggles.SetConfig]

/-- Claim C4 witness: the theorem applied at the default toggle and the
valid body (enabled, rate 1/2, status code 503). -/
theorem C4_error_rate_witness :
    (0 : ℚ) ≤ 1/2 ∧ (1/2 : ℚ) ≤ 1 ∧ (500 : ℤ) ≤ 503 ∧ (503 : ℤ) ≤ 599 ∧
    (Handlers.ErrorRate Toggles.NewErrorToggle
      (some { Enabled := true, Rate := 1/2, StatusCode := 503 })).status
      = 200 ∧
    (Handlers.ErrorRate Toggles.NewErrorToggle
      (some { Enabled := true, Rate := 1/2, StatusCode := 503 })).toggle
      = { Enabled := true, Rate := 1/2, StatusCode := 503 } :=
  ⟨by norm_num, by norm_num, by norm_num, by norm_num,
    ((C4_error_rate Toggles.NewErrorToggle
        (some { Enabled := true, Rate := 1/2, StatusCode := 503 })).2.2.1
      { Enabled := true, Rate := 1/2, StatusCode := 503 } rfl
      (by norm_num) (by norm_num) (by norm_num) (by norm_num)).1,
    ((C4_error_rate Toggles.NewErrorToggle
        (some { Enabled := true, Rate := 1/2, StatusCode := 503 })).2.2.1
      { Enabled := true, Rate := 1/2, StatusCode := 503 } rfl
      (by norm_num) (by norm_num) (by norm_num) (by norm_num)).2.1⟩

end ClaimC4

section ClaimC5

/-- If every check before position i passes and check i fails, the
readiness walk stops at i and reports it. -/
lemma firstFailure_first_wins (pre post : List (String × Health.CheckFunc))
    (name : String) (chk : Health.CheckFunc) (msg : String) (ctx : Health.Ctx)
    (hpre : ∀ p ∈ pre, p.2 ctx = none) (hchk : chk ctx = some msg) :
    Health.firstFailure (pre ++ (name, chk) :: post) ctx
      = some { Component := name, Message := msg } := by
  induction pre with
  | nil => simp [Health.firstFailure, hchk]
  | cons p rest ih =>
    have hp : p.2 ctx = none := hpre p (List.mem_cons_self p rest)
    have hrest : ∀ q ∈ rest, q.2 ctx = none :=
      fun q hq => hpre q (List.mem_cons_of_mem p hq)
    obtain ⟨n0, c0⟩ := p
    simp only [List.cons_append, Health.firstFailure]
    rw [show c0 = (n0, c0).2 from rfl, hp]
    exact ih hrest


/-- Claim C5: CheckReadiness with force-failure set fails immediately with
component "forced" for every set of registered checks; otherwise it runs
the registered checks under the context capped by the 5s batch deadline
and the first failing check aborts the walk, naming that check and its
message; with no checks and no forced failure it is healthy; the endpoint
answers 200 Ready, and 503 with "Not Ready: " and the error detail. -/
theorem C5_check_readiness (c : Health.Checker) (ctx : Health.Ctx) :
    (c.forceFailure = true →
      Health.CheckReadiness c ctx =
        some { Component := "forced"
               Message := "readiness check forced to fail for testing" }) ∧
    (c.forceFailure = false →
      Health.CheckReadiness c ctx =
        Health.firstFailure c.checks (Health.withTimeout ctx 5000)) ∧
    (c.forceFailure = false →
      ∀ pre post name chk msg,
        c.checks = pre ++ (name, chk) :: post →
        (∀ p ∈ pre, p.2 (Health.withTimeout ctx 5000) = none) →
        chk (Health.withTimeout ctx 5000) = some msg →
        Health.CheckReadiness c ctx =
          some { Component := name, Message := msg }) ∧
    (c.forceFailure = false → c.checks = [] →
      Health.CheckReadiness c ctx = none) ∧
    (∀ e, Health.CheckReadiness c ctx = some e →
      Health.ReadinessHandler c ctx =
        (503, "Not Ready: " ++ Health.errorString e)) ∧
    (Health.CheckReadiness c ctx = none →
      Health.ReadinessHandler c ctx = (200, "Ready")) := by
  refine ⟨?_, ?_, ?_, ?_, ?_, ?_⟩
  · intro h
    simp [Health.CheckReadiness, Health.IsForceFailure, h]
  · intro h
    simp [Health.CheckReadiness, Health.IsForceFailure, h]
  · intro h pre post name chk msg heq hpre hchk
    simp only [Health.CheckReadiness, Health.IsForceFailure, h,
      Bool.false_eq_true, if_false]
    rw [heq]
    exact firstFailure_first_wins pre post name chk msg _ hpre hchk
  · intro h he
    simp [Health.CheckReadiness, Health.IsForceFailure, h, he,
      Health.firstFailure]
  · intro e he
    simp [Health.ReadinessHandler, he]
  · intro he
    simp [Health.ReadinessHandler, he]


/-- Claim C5 witness: the theorem applied to a checker holding one failing
check named db. -/
theorem C5_check_readiness_witness :
    (Health.AddCheck Health.NewChecker "db"
      (fun _ => some "connection failed")).forceFailure = false ∧
    Health.CheckReadiness
      (Health.AddCheck Health.NewChecker "db"
        (fun _ => some "connection failed")) none
      = some { Component := "db", Message := "connection failed" } :=
  ⟨rfl,
    (C5_check_readiness
      (Health.AddCheck Health.NewChecker "db"
        (fun _ => some "connection failed")) none).2.2.1 rfl
      [] [] "db" (fun _ => some "connection failed") "connection failed"
      rfl (by simp) rfl⟩

end ClaimC5

section ClaimC8

/-- Claim C8: the bearer-auth middleware invokes the wrapped handler
exactly when the Authorization header equals "Bearer " followed by the
admin token; for a missing header, a wrong prefix or a wrong token it
answers 401 without invoking the handler. -/
theorem C8_bearer_auth (tok hdr : List Char) :
    (Middleware.BearerTokenAuthMiddleware tok hdr =
        { status := none, nextInvoked := true } ↔
      hdr = Middleware.bearerPfx ++ tok) ∧
    (hdr ≠ Middleware.bearerPfx ++ tok →
      Middleware.BearerTokenAuthMiddleware tok hdr =
        { status := some 401, nextInvoked := false }) := by
  have hfwd : ∀ h : List Char,
      Middleware.BearerTokenAuthMiddleware tok h =
        { status := none, nextInvoked := true } →
      h = Middleware.bearerPfx ++ tok := by
    intro h hres
    unfold Middleware.BearerTokenAuthMiddleware at hres
    by_cases h0 : h = []
    · simp [h0] at hres
    · rw [if_neg h0] at hres
      by_cases h1 : h.length < Middleware.bearerPfx.length ∨
          h.take Middleware.bearerPfx.length ≠ Middleware.bearerPfx
      · simp [h1] at hres
      · rw [if_neg h1] at hres
        by_cases h2 : h.drop Middleware.bearerPfx.length ≠ tok
        · simp [h2] at hres
        · push_neg at h1 h2
          calc h = h.take Middleware.bearerPfx.length ++
                h.drop Middleware.bearerPfx.length :=
              (List.take_append_drop _ _).symm
            _ = Middleware.bearerPfx ++ tok := by rw [h1.2, h2]
  have hbwd :
      Middleware.BearerTokenAuthMiddleware tok
        (Middleware.bearerPfx ++ tok) =
        { status := none, nextInvoked := true } := by
    unfold Middleware.BearerTokenAuthMiddleware
    have g0 : ¬ (Middleware.bearerPfx ++ tok = ([] : List Char)) := by
      simp [Middleware.bearerPfx]
    have g1 : ¬ ((Middleware.bearerPfx ++ tok).length <
          Middleware.bearerPfx.length ∨
        (Middleware.bearerPfx ++ tok).take Middleware.bearerPfx.length ≠
          Middleware.bearerPfx) := by
      push_neg
      exact ⟨by simp, List.take_left _ _⟩
    have g2 : ¬ ((Middleware.bearerPfx ++ tok).drop
        Middleware.bearerPfx.length ≠ tok) := by
      simp [List.drop_left]
    rw [if_neg g0, if_neg g1, if_neg g2]
  refine ⟨⟨hfwd hdr, fun he => he ▸ hbwd⟩, ?_⟩
  intro hne
  unfold Middleware.BearerTokenAuthMiddleware
  by_cases h0 : hdr = []
  · simp [h0]
  · rw [if_neg h0]
    by_cases h1 : hdr.length < Middleware.bearerPfx.length ∨
        hdr.take Middleware.bearerPfx.length ≠ Middleware.bearerPfx
    · simp [h1]
    · rw [if_neg h1]
      have h2 : hdr.drop Middleware.bearerPfx.length ≠ tok := by
        intro hdrop
        push_neg at h1
        exact hne (by
          calc hdr = hdr.take Middleware.bearerPfx.length ++
                hdr.drop Middleware.bearerPfx.length :=
              (List.take_append_drop _ _).symm
            _ = Middleware.bearerPfx ++ tok := by rw [h1.2, hdrop])
      simp [h2]


/-- Claim C8 witness: the theorem applied at admin token "sec", once with
the exact bearer header and once with a header lacking the prefix. -/
theorem C8_bearer_auth_witness :
    (['s','e','c'] : List Char) ≠ Middleware.bearerPfx ++ ['s','e','c'] ∧
    Middleware.BearerTokenAuthMiddleware ['s','e','c']
      (Middleware.bearerPfx ++ ['s','e','c'])
      = { status := none, nextInvoked := true } ∧
    Middleware.BearerTokenAuthMiddleware ['s','e','c'] ['s','e','c']
      = { status := some 401, nextInvoked := false } :=
  ⟨by decide,
    (C8_bearer_auth ['s','e','c'] (Middleware.bearerPfx ++ ['s','e','c'])).1.mpr
      rfl,
    (C8_bearer_auth ['s','e','c'] ['s','e','c']).2 (by decide)⟩

end ClaimC8

section ClaimC6

/-- Claim C6: the recovery middleware never lets a downstream panic
propagate; on a normal return it passes the response through untouched;
on a panic it logs the panic value with the request id and the stack
trace and answers 500 when no status had been written, leaving an
already-written status in place. -/
theorem C6_panic_recovery (next : Middleware.Downstream)
    (reqId stk : String) (w : Option ℤ) :
    (Middleware.PanicRecoveryMiddleware next reqId stk w).2.1 = none ∧
    (∀ w2, next w = (w2, none) →
      Middleware.PanicRecoveryMiddleware next reqId stk w = (w2, none, [])) ∧
    (∀ w2 e, next w = (w2, some e) →
      Middleware.PanicRecoveryMiddleware next reqId stk w =
        (Middleware.writeHeader w2 500, none,
          [{ err := e, requestId := reqId, stack := stk }]) ∧
      (w2 = none →
        (Middleware.PanicRecoveryMiddleware next reqId stk w).1 = some 500) ∧
      (∀ s, w2 = some s →
        (Middleware.PanicRecoveryMiddleware next reqId stk w).1 = some s)) := by
  rcases h : next w with ⟨w2, p⟩
  refine ⟨?_, ?_, ?_⟩
  · cases p <;> simp [Middleware.PanicRecoveryMiddleware, h]
  · intro w3 h3
    simp only [Prod.mk.injEq] at h3
    obtain ⟨hw, hp⟩ := h3
    subst hw
    subst hp
    simp [Middleware.PanicRecoveryMiddleware, h]
  · intro w3 e h3
    simp only [Prod.mk.injEq] at h3
    obtain ⟨hw, hp⟩ := h3
    subst hw
    subst hp
    refine ⟨by simp [Middleware.PanicRecoveryMiddleware, h], ?_, ?_⟩
    · intro hw
      subst hw
      simp [Middleware.PanicRecoveryMiddleware, h, Middleware.writeHeader]
    · intro s hw
      subst hw
      simp [Middleware.PanicRecoveryMiddleware, h, Middleware.writeHeader]


/-- Claim C6 witness: the theorem applied to a downstream handler that
panics with "boom" before writing a status. -/
theorem C6_panic_recovery_witness :
    (fun (w : Option ℤ) => (w, some "boom")) (none : Option ℤ)
      = ((none : Option ℤ), some "boom") ∧
    Middleware.PanicRecoveryMiddleware
      (fun w => (w, some "boom")) "req-1" "stacktrace" none
      = (some 500, none,
         [{ err := "boom", requestId := "req-1", stack := "stacktrace" }]) :=
  ⟨rfl,
    ((C6_panic_recovery (fun w => (w, some "boom")) "req-1" "stacktrace"
      none).2.2 none "boom" rfl).1⟩

end ClaimC6

section ClaimC3

/-- Claim C3 counterexample: the pipeline NewRouter composes is not the
order the claim states. NewRouter installs panic recovery before (outside
of) structured logging, so the trace of the composed stack differs from
the trace of the claimed request-id, logging, recovery, metrics order. -/
theorem C3_counterexample :
    Middleware.applyStack Middleware.routerStack
        [Middleware.MwEvent.handlerRun] ≠
      Middleware.applyStack Middleware.claimedStack
        [Middleware.MwEvent.handlerRun] := by
  decide

/-- Claim C3 (amended): for every inbound request the pipeline executes
outermost-first in the order request-id (chi built-in, then the custom
one), panic recovery, structured logging, metrics instrumentation, then
timeout — the recovery middleware wraps the logging middleware, not the
other way round — and on the /api/v1/toggles routes fault injection and
then bearer auth run innermost before the handler. -/
theorem C3_pipeline_order :
    Middleware.applyStack Middleware.routerStack
        [Middleware.MwEvent.handlerRun] =
      [Middleware.MwEvent.enter "chi.RequestID",
       Middleware.MwEvent.enter "RequestIDMiddleware",
       Middleware.MwEvent.enter "PanicRecoveryMiddleware",
       Middleware.MwEvent.enter "LoggingMiddleware",
       Middleware.MwEvent.enter "PrometheusMiddleware",
       Middleware.MwEvent.enter "Timeout",
       Middleware.MwEvent.handlerRun,
       Middleware.MwEvent.exit "Timeout",
       Middleware.MwEvent.exit "PrometheusMiddleware",
       Middleware.MwEvent.exit "LoggingMiddleware",
       Middleware.MwEvent.exit "PanicRecoveryMiddleware",
       Middleware.MwEvent.exit "RequestIDMiddleware",
       Middleware.MwEvent.exit "chi.RequestID"] ∧
    Middleware.applyStack Middleware.togglesRouteStack
        [Middleware.MwEvent.handlerRun] =
      [Middleware.MwEvent.enter "chi.RequestID",
       Middleware.MwEvent.enter "RequestIDMiddleware",
       Middleware.MwEvent.enter "PanicRecoveryMiddleware",
       Middleware.MwEvent.enter "LoggingMiddleware",
       Middleware.MwEvent.enter "PrometheusMiddleware",
       Middleware.MwEvent.enter "Timeout",
       Middleware.MwEvent.enter "ErrorInjectionMiddleware",
       Middleware.MwEvent.enter "BearerTokenAuthMiddleware",
       Middleware.MwEvent.handlerRun,
       Middleware.MwEvent.exit "BearerTokenAuthMiddleware",
       Middleware.MwEvent.exit "ErrorInjectionMiddleware",
       Middleware.MwEvent.exit "Timeout",
       Middleware.MwEvent.exit "PrometheusMiddleware",
       Middleware.MwEvent.exit "LoggingMiddleware",
       Middleware.MwEvent.exit "PanicRecoveryMiddleware",
       Middleware.MwEvent.exit "RequestIDMiddleware",
       Middleware.MwEvent.exit "chi.RequestID"] := by
  constructor <;> rfl

end ClaimC3

section ClaimsC9C10

/-- The parsed jitter duration is never negative. -/
lemma jitterDurationOf_nonneg (p : WorkSim.Param) :
    0 ≤ WorkSim.jitterDurationOf p := by
  cases p with
  | value n =>
    by_cases h : 0 ≤ n
    · simp only [WorkSim.jitterDurationOf, WorkSim.msToDuration, if_pos h]
      positivity
    · simp [WorkSim.jitterDurationOf, WorkSim.msToDuration, h]
  | absent => simp [WorkSim.jitterDurationOf]
  | invalid => simp [WorkSim.jitterDurationOf]


/-- On parsed parameters the total-duration computation always succeeds:
the jitter draw runs only under the positivity guard. -/
lemma computeTotal_parsed (ms jitter : WorkSim.Param) (sample : ℤ) :
    WorkSim.computeTotal (WorkSim.baseDurationOf ms)
        (WorkSim.jitterDurationOf jitter) sample
      = some (if 0 < WorkSim.jitterDurationOf jitter then
          WorkSim.baseDurationOf ms + sample % WorkSim.jitterDurationOf jitter
        else WorkSim.baseDurationOf ms) := by
  by_cases h : 0 < WorkSim.jitterDurationOf jitter
  · simp [WorkSim.computeTotal, WorkSim.randInt63n, h, not_le.mpr h]
  · simp [WorkSim.computeTotal, h]


/-- Claim C9: when simulated work ends by cancellation the Work handler
answers 408 with the cancellation body, counts exactly one failure of
operation simulate_work, and does not propagate any panic; on natural
completion no failure is counted and a 200 result echoes the requested
base and jitter durations in milliseconds. -/
theorem C9_work_outcomes (ms jitter : WorkSim.Param) (sample : ℤ) :
    (WorkSim.Work ms jitter sample .cancelled).status = some 408 ∧
    (WorkSim.Work ms jitter sample .cancelled).body
      = some "Work simulation cancelled" ∧
    (WorkSim.Work ms jitter sample .cancelled).failureOps
      = ["simulate_work"] ∧
    (WorkSim.Work ms jitter sample .cancelled).panicPropagates = false ∧
    (WorkSim.Work ms jitter sample .completed).status = some 200 ∧
    (WorkSim.Work ms jitter sample .completed).failureOps = [] ∧
    (WorkSim.Work ms jitter sample .completed).requestedMs
      = some (WorkSim.durationMilliseconds (WorkSim.baseDurationOf ms)) ∧
    (WorkSim.Work ms jitter sample .completed).jitterMs
      = some (WorkSim.durationMilliseconds (WorkSim.jitterDurationOf jitter)) ∧
    (∀ n, 0 ≤ n → ms = WorkSim.Param.value n →
      (WorkSim.Work ms jitter sample .completed).requestedMs = some n) := by
  have hct := computeTotal_parsed ms jitter sample
  refine ⟨?_, ?_, ?_, ?_, ?_, ?_, ?_, ?_, ?_⟩
  case refine_9 =>
    intro n hn hms
    subst hms
    have h6 : (1000000 : ℤ) ≠ 0 := by norm_num
    simp only [WorkSim.Work, hct]
    simp only [WorkSim.baseDurationOf, if_pos hn, WorkSim.durationMilliseconds,
      WorkSim.msToDuration, Option.some.injEq]
    exact Int.mul_ediv_cancel n h6
  all_goals simp [WorkSim.Work, hct]


/-- Claim C9 witness: the theorem applied at ms=200, no jitter. -/
theorem C9_work_outcomes_witness :
    (0 : ℤ) ≤ 200 ∧
    (WorkSim.Work (WorkSim.Param.value 200) WorkSim.Param.absent 0
      .completed).requestedMs = some 200 :=
  ⟨by norm_num,
    (C9_work_outcomes (WorkSim.Param.value 200) WorkSim.Param.absent
      0).2.2.2.2.2.2.2.2 200 (by norm_num) rfl⟩


/-- Claim C10: the jitter draw is guarded by strict positivity: whenever
the parsed jitter duration is 0 (the default for an absent, invalid or
negative parameter) the total equals the base duration exactly; on parsed
parameters the computation always succeeds even though rand.Int63n at a
non-positive bound would panic; hence the Work handler never panics of
its own accord. -/
theorem C10_jitter_no_panic (ms jitter : WorkSim.Param) (sample : ℤ) :
    (WorkSim.jitterDurationOf jitter = 0 →
      WorkSim.computeTotal (WorkSim.baseDurationOf ms)
        (WorkSim.jitterDurationOf jitter) sample
        = some (WorkSim.baseDurationOf ms)) ∧
    ((jitter = WorkSim.Param.absent ∨ jitter = WorkSim.Param.invalid ∨
        ∃ n, jitter = WorkSim.Param.value n ∧ n < 0) →
      WorkSim.jitterDurationOf jitter = 0) ∧
    (∃ t, WorkSim.computeTotal (WorkSim.baseDurationOf ms)
        (WorkSim.jitterDurationOf jitter) sample = some t) ∧
    (∀ b, WorkSim.randInt63n 0 b = none) ∧
    (∀ outcome, (WorkSim.Work ms jitter sample outcome).panicPropagates
      = decide (outcome = WorkSim.WorkOutcome.panicked)) := by
  have hct := computeTotal_parsed ms jitter sample
  refine ⟨?_, ?_, ⟨_, hct⟩, ?_, ?_⟩
  · intro hj
    simp [WorkSim.computeTotal, hj]
  · intro h
    rcases h with h | h | ⟨n, hn, hneg⟩
    · simp [h, WorkSim.jitterDurationOf]
    · simp [h, WorkSim.jitterDurationOf]
    · simp [hn, WorkSim.jitterDurationOf, not_le.mpr hneg]
  · intro b
    simp [WorkSim.randInt63n]
  · intro outcome
    cases outcome <;> simp [WorkSim.Work, hct]


/-- Claim C10 witness: the theorem applied at a negative jitter parameter,
whose parsed jitter duration is 0. -/
theorem C10_jitter_no_panic_witness :
    WorkSim.jitterDurationOf (WorkSim.Param.value (-5)) = 0 ∧
    WorkSim.computeTotal (WorkSim.baseDurationOf WorkSim.Param.absent)
      (WorkSim.jitterDurationOf (WorkSim.Param.value (-5))) 0
      = some (WorkSim.baseDurationOf WorkSim.Param.absent) :=
  ⟨by decide,
    (C10_jitter_no_panic WorkSim.Param.absent (WorkSim.Param.value (-5))
      0).1 (by decide)⟩

end ClaimsC9C10

section ClaimC2

/-- Every execution of the Work handler emits exactly one increment
followed by one decrement of the in-flight gauge, on every exit path. -/
lemma work_gaugeEvents (ms jitter : WorkSim.Param) (sample : ℤ)
    (outcome : WorkSim.WorkOutcome) :
    (WorkSim.Work ms jitter sample outcome).gaugeEvents
      = [Metrics.GaugeEvent.inc, Metrics.GaugeEvent.dec] := by
  have hct := computeTotal_parsed ms jitter sample
  cases outcome <;> simp [WorkSim.Work, hct]


/-- Counting the pending-decrement lists across an append with a
distinguished middle element. -/
lemma pendingDecs_middle (pre post : List (List Metrics.GaugeEvent))
    (m : List Metrics.GaugeEvent) :
    Metrics.pendingDecs (pre ++ m :: post)
      = Metrics.pendingDecs pre
        + (if m = [Metrics.GaugeEvent.dec] then 1 else 0)
        + Metrics.pendingDecs post := by
  unfold Metrics.pendingDecs
  rw [List.countP_append, List.countP_cons]
  by_cases h : m = [Metrics.GaugeEvent.dec]
  · simp [h]
    omega
  · simp [h]


/-- Unfolding one step of the gauge fold. -/
lemma gaugeAfter_cons (g : ℤ) (e : Metrics.GaugeEvent)
    (evs : List Metrics.GaugeEvent) :
    Metrics.gaugeAfter g (e :: evs)
      = Metrics.gaugeAfter (Metrics.applyGaugeEvent g e) evs := rfl


/-- Invariant of any interleaving of per-request traces that are suffixes
of [inc, dec]: starting the gauge at the number of pending decrements, it
never goes below zero and ends at zero. -/
lemma interleave_invariant (ls : List (List Metrics.GaugeEvent))
    (out : List Metrics.GaugeEvent) (h : Metrics.Interleave ls out)
    (hok : ∀ l ∈ ls,
      l = [Metrics.GaugeEvent.inc, Metrics.GaugeEvent.dec] ∨
      l = [Metrics.GaugeEvent.dec] ∨ l = []) :
    Metrics.gaugeAfter (Metrics.pendingDecs ls) out = 0 ∧
    ∀ l₁ l₂, out = l₁ ++ l₂ →
      0 ≤ Metrics.gaugeAfter (Metrics.pendingDecs ls) l₁ := by
  induction h with
  | nil ls hnil =>
    have hz : Metrics.pendingDecs ls = 0 := by
      unfold Metrics.pendingDecs
      rw [List.countP_eq_zero]
      intro l hl
      simp [hnil l hl]
    constructor
    · simp [hz, Metrics.gaugeAfter]
    · intro l₁ l₂ he
      have h1 : l₁ = [] := by
        cases l₁ with
        | nil => rfl
        | cons a t => simp at he
      subst h1
      simp [hz, Metrics.gaugeAfter]
  | cons pre post x xs out h' ih =>
    have hmid : (x :: xs) = [Metrics.GaugeEvent.inc, Metrics.GaugeEvent.dec] ∨
        (x :: xs) = [Metrics.GaugeEvent.dec] ∨ (x :: xs) = ([] : List Metrics.GaugeEvent) := by
      apply hok
      simp
    have hok' : ∀ l ∈ pre ++ xs :: post,
        l = [Metrics.GaugeEvent.inc, Metrics.GaugeEvent.dec] ∨
        l = [Metrics.GaugeEvent.dec] ∨ l = [] := by
      intro l hl
      rcases List.mem_append.mp hl with hl | hl
      · exact hok l (List.mem_append.mpr (Or.inl hl))
      · rcases List.mem_cons.mp hl with hl | hl
        · subst hl
          rcases hmid with hm | hm | hm
          · simp only [List.cons.injEq] at hm
            right
            left
            exact hm.2
          · simp only [List.cons.injEq] at hm
            right
            right
            exact hm.2
          · simp at hm
        · exact hok l (List.mem_append.mpr (Or.inr (List.mem_cons_of_mem _ hl)))
    have IH := ih hok'
    rcases hmid with hm | hm | hm
    · simp only [List.cons.injEq] at hm
      obtain ⟨hx, hxs⟩ := hm
      subst hx
      subst hxs
      have hPP : (Metrics.pendingDecs
            (pre ++ [Metrics.GaugeEvent.dec] :: post) : ℤ)
          = (Metrics.pendingDecs
              (pre ++ [Metrics.GaugeEvent.inc, Metrics.GaugeEvent.dec]
                :: post) : ℤ) + 1 := by
        rw [pendingDecs_middle, pendingDecs_middle]
        simp
        ring
      constructor
      · rw [gaugeAfter_cons]
        simp only [Metrics.applyGaugeEvent, Metrics.IncWorkJobsInflight]
        rw [← hPP]
        exact IH.1
      · intro l₁ l₂ he
        cases l₁ with
        | nil =>
          simp [Metrics.gaugeAfter]
        | cons a t =>
          simp only [List.cons_append, List.cons.injEq] at he
          obtain ⟨ha, hout⟩ := he
          subst ha
          rw [gaugeAfter_cons]
          simp only [Metrics.applyGaugeEvent, Metrics.IncWorkJobsInflight]
          rw [← hPP]
          exact IH.2 t l₂ hout
    · simp only [List.cons.injEq] at hm
      obtain ⟨hx, hxs⟩ := hm
      subst hx
      subst hxs
      have hPP : (Metrics.pendingDecs
            (pre ++ [Metrics.GaugeEvent.dec] :: post) : ℤ)
          = (Metrics.pendingDecs (pre ++ [] :: post) : ℤ) + 1 := by
        rw [pendingDecs_middle, pendingDecs_middle]
        simp
        ring
      constructor
      · rw [gaugeAfter_cons]
        simp only [Metrics.applyGaugeEvent, Metrics.DecWorkJobsInflight]
        have : (Metrics.pendingDecs
            (pre ++ [Metrics.GaugeEvent.dec] :: post) : ℤ) - 1
            = (Metrics.pendingDecs (pre ++ [] :: post) : ℤ) := by
          omega
        rw [this]
        exact IH.1
      · intro l₁ l₂ he
        cases l₁ with
        | nil =>
          simp [Metrics.gaugeAfter]
        | cons a t =>
          simp only [List.cons_append, List.cons.injEq] at he
          obtain ⟨ha, hout⟩ := he
          subst ha
          rw [gaugeAfter_cons]
          simp only [Metrics.applyGaugeEvent, Metrics.DecWorkJobsInflight]
          have : (Metrics.pendingDecs
              (pre ++ [Metrics.GaugeEvent.dec] :: post) : ℤ) - 1
              = (Metrics.pendingDecs (pre ++ [] :: post) : ℤ) := by
            omega
          rw [this]
          exact IH.2 t l₂ hout
    · simp at hm


/-- Claim C2: for any set of work requests, every interleaving of their
gauge traces keeps the in-flight gauge non-negative on every prefix, and
once all requests have finished the gauge is exactly 0: each increment on
entry is matched by exactly one decrement on every exit path. -/
theorem C2_inflight_gauge (reqs : List WorkSim.WorkReq)
    (out : List Metrics.GaugeEvent)
    (h : Metrics.Interleave
      (reqs.map fun q =>
        (WorkSim.Work q.ms q.jitter q.sample q.outcome).gaugeEvents)
      out) :
    (∀ l₁ l₂, out = l₁ ++ l₂ → 0 ≤ Metrics.gaugeAfter 0 l₁) ∧
    Metrics.gaugeAfter 0 out = 0 := by
  set ls := reqs.map fun q =>
    (WorkSim.Work q.ms q.jitter q.sample q.outcome).gaugeEvents with hls
  have hok : ∀ l ∈ ls,
      l = [Metrics.GaugeEvent.inc, Metrics.GaugeEvent.dec] ∨
      l = [Metrics.GaugeEvent.dec] ∨ l = [] := by
    intro l hl
    rcases List.mem_map.mp hl with ⟨q, _, rfl⟩
    left
    exact work_gaugeEvents q.ms q.jitter q.sample q.outcome
  have hz : Metrics.pendingDecs ls = 0 := by
    unfold Metrics.pendingDecs
    rw [List.countP_eq_zero]
    intro l hl
    rcases List.mem_map.mp hl with ⟨q, _, rfl⟩
    rw [work_gaugeEvents q.ms q.jitter q.sample q.outcome]
    simp
  have hinv := interleave_invariant ls out h hok
  rw [hz] at hinv
  exact ⟨fun l₁ l₂ he => by simpa using hinv.2 l₁ l₂ he,
    by simpa using hinv.1⟩


/-- Claim C2 witness: two overlapping work requests, one completing and
one cancelled, interleaved as inc inc dec dec. -/
theorem C2_inflight_gauge_witness :
    Metrics.Interleave
      (([{ ms := WorkSim.Param.absent, jitter := WorkSim.Param.absent,
           sample := 0, outcome := WorkSim.WorkOutcome.completed },
         { ms := WorkSim.Param.value 200, jitter := WorkSim.Param.absent,
           sample := 0, outcome := WorkSim.WorkOutcome.cancelled }] :
        List WorkSim.WorkReq).map fun q =>
          (WorkSim.Work q.ms q.jitter q.sample q.outcome).gaugeEvents)
      [Metrics.GaugeEvent.inc, Metrics.GaugeEvent.inc,
       Metrics.GaugeEvent.dec, Metrics.GaugeEvent.dec] ∧
    Metrics.gaugeAfter 0
      [Metrics.GaugeEvent.inc, Metrics.GaugeEvent.inc,
       Metrics.GaugeEvent.dec, Metrics.GaugeEvent.dec] = 0 := by
  have hI : Metrics.Interleave
      [[Metrics.GaugeEvent.inc, Metrics.GaugeEvent.dec],
       [Metrics.GaugeEvent.inc, Metrics.GaugeEvent.dec]]
      [Metrics.GaugeEvent.inc, Metrics.GaugeEvent.inc,
       Metrics.GaugeEvent.dec, Metrics.GaugeEvent.dec] :=
    Metrics.Interleave.cons []
      [[Metrics.GaugeEvent.inc, Metrics.GaugeEvent.dec]]
      Metrics.GaugeEvent.inc [Metrics.GaugeEvent.dec]
      [Metrics.GaugeEvent.inc, Metrics.GaugeEvent.dec,
       Metrics.GaugeEvent.dec]
      (Metrics.Interleave.cons [[Metrics.GaugeEvent.dec]] []
        Metrics.GaugeEvent.inc [Metrics.GaugeEvent.dec]
        [Metrics.GaugeEvent.dec, Metrics.GaugeEvent.dec]
        (Metrics.Interleave.cons [] [[Metrics.GaugeEvent.dec]]
          Metrics.GaugeEvent.dec [] [Metrics.GaugeEvent.dec]
          (Metrics.Interleave.cons [[]] []
            Metrics.GaugeEvent.dec [] []
            (Metrics.Interleave.nil [[], []] (by simp)))))
  have hmap : (([{ ms := WorkSim.Param.absent,
                   jitter := WorkSim.Param.absent,
                   sample := 0,
                   outcome := WorkSim.WorkOutcome.completed },
                 { ms := WorkSim.Param.value 200,
                   jitter := WorkSim.Param.absent,
                   sample := 0,
                   outcome := WorkSim.WorkOutcome.cancelled }] :
                List WorkSim.WorkReq).map fun q =>
                  (WorkSim.Work q.ms q.jitter q.sample q.outcome).gaugeEvents)
      = [[Metrics.GaugeEvent.inc, Metrics.GaugeEvent.dec],
         [Metrics.GaugeEvent.inc, Metrics.GaugeEvent.dec]] := rfl
  refine ⟨?_, ?_⟩
  · rw [hmap]
    exact hI
  · exact (C2_inflight_gauge _ _ (by rw [hmap]; exact hI)).2

end ClaimC2

section ClaimC7

/-- The drain loop times out exactly when no poll in its window reads an
in-flight count of zero. -/
lemma drainAux_none_iff (inflight : ℕ → ℕ) :
    ∀ fuel t, Shutdown.drainAux inflight fuel t = none ↔
      ∀ u, t < u → u ≤ t + fuel → inflight u ≠ 0 := by
  intro fuel
  induction fuel with
  | zero =>
    intro t
    simp [Shutdown.drainAux]
    omega
  | succ n ih =>
    intro t
    unfold Shutdown.drainAux
    by_cases h : inflight (t + 1) = 0
    · rw [if_pos h]
      exact iff_of_false (by simp)
        (fun hall => absurd h (hall (t + 1) (by omega) (by omega)))
    · rw [if_neg h, ih (t + 1)]
      constructor
      · intro hall u hu1 hu2
        by_cases he : u = t + 1
        · exact he ▸ h
        · exact hall u (by omega) (by omega)
      · intro hall u hu1 hu2
        exact hall u (by omega) (by omega)


/-- A successful drain stops at the first poll that reads zero, inside
the window. -/
lemma drainAux_some_spec (inflight : ℕ → ℕ) :
    ∀ fuel t s, Shutdown.drainAux inflight fuel t = some s →
      inflight s = 0 ∧ t < s ∧ s ≤ t + fuel ∧
      ∀ u, t < u → u < s → inflight u ≠ 0 := by
  intro fuel
  induction fuel with
  | zero =>
    intro t s hs
    simp [Shutdown.drainAux] at hs
  | succ n ih =>
    intro t s hs
    unfold Shutdown.drainAux at hs
    by_cases h : inflight (t + 1) = 0
    · rw [if_pos h] at hs
      cases hs
      exact ⟨h, by omega, by omega, fun u hu1 hu2 => by omega⟩
    · rw [if_neg h] at hs
      obtain ⟨h0, h1, h2, h3⟩ := ih (t + 1) s hs
      refine ⟨h0, by omega, by omega, ?_⟩
      intro u hu1 hu2
      by_cases he : u = t + 1
      · exact he ▸ h
      · exact h3 u (by omega) hu2


/-- Claim C7 counterexample: with work that never drains, the 30s deadline
elapses and gracefulShutdown returns the deadline error WITHOUT calling
server.Shutdown or flushing metrics, and main exits with code 1 — the
timeout aborts cleanup and is fatal, contrary to the claim. -/
theorem C7_counterexample :
    ¬ ((Shutdown.gracefulShutdown (fun _ => 1) 30 none
          none).serverShutdownCalled = true ∧
       (Shutdown.gracefulShutdown (fun _ => 1) 30 none
          none).flushAttempted = true ∧
       Shutdown.mainExitCode
         (Shutdown.gracefulShutdown (fun _ => 1) 30 none none) = 0) := by
  decide


/-- Claim C7 (amended): on a termination signal the coordinator polls the
in-flight count every second until it reads zero or the shutdown deadline
elapses, whichever comes first; only when the count reaches zero within
the deadline does it then stop accepting connections (server.Shutdown)
and attempt a best-effort metrics flush, and the process exits 0; if the
deadline elapses first, gracefulShutdown returns the deadline error
without shutting the listener down or flushing, and the process exits
non-zero. -/
theorem C7_graceful_shutdown (inflight : ℕ → ℕ) (deadline : ℕ)
    (flushErr : Option String) :
    ((∀ u, 1 ≤ u → u ≤ deadline → inflight u ≠ 0) →
      Shutdown.gracefulShutdown inflight deadline none flushErr =
        { retErr := some "context deadline exceeded"
          serverShutdownCalled := false, flushAttempted := false } ∧
      Shutdown.mainExitCode
        (Shutdown.gracefulShutdown inflight deadline none flushErr) = 1) ∧
    (∀ s, Shutdown.drainAux inflight deadline 0 = some s →
      inflight s = 0 ∧ 1 ≤ s ∧ s ≤ deadline ∧
      (∀ u, 1 ≤ u → u < s → inflight u ≠ 0) ∧
      Shutdown.gracefulShutdown inflight deadline none flushErr =
        { retErr := none, serverShutdownCalled := true
          flushAttempted := true } ∧
      Shutdown.mainExitCode
        (Shutdown.gracefulShutdown inflight deadline none flushErr) = 0) ∧
    ((∃ u, 1 ≤ u ∧ u ≤ deadline ∧ inflight u = 0) →
      ∃ s, Shutdown.drainAux inflight deadline 0 = some s) := by
  refine ⟨?_, ?_, ?_⟩
  · intro hall
    have hnone : Shutdown.drainAux inflight deadline 0 = none := by
      rw [drainAux_none_iff]
      intro u hu1 hu2
      exact hall u (by omega) (by omega)
    constructor
    · simp [Shutdown.gracefulShutdown, hnone]
    · simp [Shutdown.gracefulShutdown, hnone, Shutdown.mainExitCode]
  · intro s hs
    obtain ⟨h0, h1, h2, h3⟩ := drainAux_some_spec inflight deadline 0 s hs
    refine ⟨h0, by omega, by omega, ?_, ?_, ?_⟩
    · intro u hu1 hu2
      exact h3 u (by omega) hu2
    · simp [Shutdown.gracefulShutdown, hs]
    · simp [Shutdown.gracefulShutdown, hs, Shutdown.mainExitCode]
  · intro hex
    cases hdr : Shutdown.drainAux inflight deadline 0 with
    | some s => exact ⟨s, rfl⟩
    | none =>
      obtain ⟨u, hu1, hu2, hu0⟩ := hex
      rw [drainAux_none_iff] at hdr
      exact absurd hu0 (hdr u (by omega) (by omega))


/-- Claim C7 witness: work that drains at the second poll, within the 30s
deadline. -/
theorem C7_graceful_shutdown_witness :
    Shutdown.drainAux (fun t => if t < 2 then 1 else 0) 30 0 = some 2 ∧
    Shutdown.gracefulShutdown (fun t => if t < 2 then 1 else 0) 30 none none
      = { retErr := none, serverShutdownCalled := true
          flushAttempted := true } ∧
    Shutdown.mainExitCode
      (Shutdown.gracefulShutdown (fun t => if t < 2 then 1 else 0) 30 none
        none) = 0 :=
  ⟨by decide,
    ((C7_graceful_shutdown (fun t => if t < 2 then 1 else 0) 30
      none).2.1 2 (by decide)).2.2.2.2.1,
    ((C7_graceful_shutdown (fun t => if t < 2 then 1 else 0) 30
      none).2.1 2 (by decide)).2.2.2.2.2⟩

end ClaimC7
